import Mathlib

/-!
Shallow embedding of the Ramadan Quiz backend (src/main.py).

The relational store is modelled as an explicit state record (`QuizState`)
holding the rows of the `participants`, `questions`, `answers`, `sessions`
and `quiz_settings` tables.  Each HTTP handler becomes a Lean function from
the state (plus its request payload and the ambient clock values) to a new
state and an `Except HttpError` result, mirroring `raise HTTPException`.
Nondeterministic inputs of the Python code — `uuid.uuid4()`, `datetime.now()`,
`bcrypt` hashing/checking, fresh SERIAL ids — are passed in as explicit
parameters.  Timestamps are abstract `Int` ticks.
-/

namespace RamadanQuiz

deriving instance DecidableEq for Except

/-- Mirrors `fastapi.HTTPException(status_code, detail)`. -/
structure HttpError where
  status : Nat
  detail : String
  deriving DecidableEq

/-- A row of the `participants` table.  `passwordHash` is the
`password_hash` column; the NULL / missing hash of a pre-migration row is
modelled as `""` (both are falsy in the Python checks). -/
structure Participant where
  id : Nat
  name : String
  phone : String
  passwordHash : String
  deriving DecidableEq

/-- A row of the `sessions` table. -/
structure Session where
  id : String
  participantId : Nat
  expiresAt : Int
  deriving DecidableEq

/-- A row of the `questions` table. -/
structure Question where
  id : Nat
  day : Int
  questionType : String
  questionText : String
  options : List String
  correctAnswer : String
  category : String
  orderNum : Int
  deriving DecidableEq

/-- A row of the `answers` table.  `answeredDate` models the calendar date
of the `answered_at DEFAULT NOW()` column. -/
structure Answer where
  participantId : Nat
  questionId : Nat
  selectedAnswer : String
  isCorrect : Nat
  timeTaken : Int
  points : Int
  answeredDate : Int
  deriving DecidableEq

/-- The whole relational store. -/
structure QuizState where
  participants : List Participant
  questions : List Question
  answers : List Answer
  sessions : List Session
  settings : List (String × String)
  deriving DecidableEq

/-- Request body of `POST /api/register` (`RegisterModel`). -/
structure RegisterModel where
  name : String
  phone : String
  password : String

/-- Request body of `POST /api/login` (`LoginModel`). -/
structure LoginModel where
  phone : String
  password : String

/-- Request body of `POST /api/answer` (`AnswerPayload`).  `time_taken` is a
Python `int`, hence `Int` here (no range validation in the source). -/
structure AnswerPayload where
  question_id : Nat
  selected_answer : String
  time_taken : Int

/-- Request body of `PUT /api/admin/settings` (`SettingsModel`): every field
is `Optional` with default `None`. -/
structure SettingsModel where
  quiz_open_time : Option String
  quiz_close_time : Option String
  current_day : Option Int

/-- The identity a verified session yields (`verify_player` return value). -/
structure PlayerInfo where
  participant_id : Nat
  name : String
  deriving DecidableEq

/-- Python `str.strip()`: drops leading and trailing whitespace. -/
def pyStrip (s : String) : String :=
  String.mk
    (((s.data.dropWhile Char.isWhitespace).reverse.dropWhile Char.isWhitespace).reverse)

/-- Python `str.lower()` (on the ASCII letters). -/
def pyLower (s : String) : String :=
  String.mk (s.data.map Char.toLower)

/-- `create_session`: inserts a fresh row into `sessions` with
`expires_at = now + SESSION_DAYS` (the duration is abstracted as
`sessionDur` ticks).  The generated `uuid4().hex` is the `sessionId`
parameter; the Python function returns it to the caller. -/
def create_session (st : QuizState) (pid : Nat) (sessionId : String)
    (now sessionDur : Int) : QuizState :=
  { st with sessions := st.sessions ++
      [{ id := sessionId, participantId := pid, expiresAt := now + sessionDur }] }

/-- `verify_player`: reads the `session_id` cookie (`""` when absent), joins
`sessions` with `participants`, 401s when no row matches, lazily deletes the
session and 401s when it is expired, and otherwise returns the bound
participant.  The returned state carries the side effect on `sessions`. -/
def verify_player (st : QuizState) (now : Int) (cookie : String) :
    QuizState × Except HttpError PlayerInfo :=
  if cookie = "" then
    (st, Except.error { status := 401, detail := "غير مصرّح" })
  else
    match st.sessions.find? (fun s => s.id == cookie) with
    | none => (st, Except.error { status := 401, detail := "جلسة غير صالحة" })
    | some s =>
      match st.participants.find? (fun p => p.id == s.participantId) with
      | none => (st, Except.error { status := 401, detail := "جلسة غير صالحة" })
      | some p =>
        if s.expiresAt < now then
          ({ st with sessions := st.sessions.filter (fun t => !(t.id == cookie)) },
           Except.error { status := 401,
                          detail := "انتهت صلاحية الجلسة، سجّل دخولك مجدداً" })
        else
          (st, Except.ok { participant_id := s.participantId, name := p.name })

/-- `register`: rejects a blank phone, rejects a phone already present in
`participants`, and otherwise inserts the participant (name and phone
stripped, password hashed) and creates a session.  `hashpw` abstracts
`bcrypt.hashpw`, `newId` the SERIAL id, `sessionId` the fresh uuid. -/
def register (st : QuizState) (data : RegisterModel) (hashpw : String → String)
    (newId : Nat) (sessionId : String) (now sessionDur : Int) :
    QuizState × Except HttpError PlayerInfo :=
  if data.phone = "" || pyStrip data.phone = "" then
    (st, Except.error { status := 400, detail := "رقم الجوال مطلوب للتسجيل" })
  else
    match st.participants.find? (fun p => p.phone == pyStrip data.phone) with
    | some _ =>
      (st, Except.error { status := 400,
                          detail := "رقم الجوال مسجّل مسبقاً، استخدم تسجيل الدخول" })
    | none =>
      (create_session
        { st with participants := st.participants ++
          [{ id := newId, name := pyStrip data.name, phone := pyStrip data.phone,
             passwordHash := hashpw data.password }] } newId sessionId now sessionDur,
       Except.ok { participant_id := newId, name := pyStrip data.name })

/-- `login`: 400 on blank phone, 404 when the (stripped) phone is unknown,
401 when the stored hash is falsy or `bcrypt.checkpw` fails, and otherwise
creates one additional session.  `checkpw` abstracts `bcrypt.checkpw`. -/
def login (st : QuizState) (data : LoginModel) (checkpw : String → String → Bool)
    (sessionId : String) (now sessionDur : Int) :
    QuizState × Except HttpError PlayerInfo :=
  if data.phone = "" || pyStrip data.phone = "" then
    (st, Except.error { status := 400, detail := "رقم الجوال مطلوب" })
  else
    match st.participants.find? (fun p => p.phone == pyStrip data.phone) with
    | none =>
      (st, Except.error { status := 404, detail := "رقم الجوال غير مسجّل، سجّل أولاً" })
    | some row =>
      if row.passwordHash = "" || !(checkpw data.password row.passwordHash) then
        (st, Except.error { status := 401, detail := "كلمة المرور غير صحيحة" })
      else
        (create_session st row.id sessionId now sessionDur,
         Except.ok { participant_id := row.id, name := row.name })

/-- The correctness test of `submit_answer`: trimmed case-insensitive
comparison for `fill_blank`, exact string equality otherwise; stored as the
`is_correct` 0/1 integer column. -/
def judgeAnswer (questionType submitted correctAnswer : String) : Nat :=
  if questionType = "fill_blank" then
    if pyLower (pyStrip submitted) = pyLower (pyStrip correctAnswer) then 1 else 0
  else
    if submitted = correctAnswer then 1 else 0

/-- The speed-based scoring line of `submit_answer`:
`points = max(10, 100 - data.time_taken * 3) if is_correct else 0`. -/
def computePoints (isCorrect : Nat) (timeTaken : Int) : Int :=
  if isCorrect ≠ 0 then max 10 (100 - timeTaken * 3) else 0

/-- The `UNIQUE(participant_id, question_id)` probe behind
`ON CONFLICT (participant_id, question_id) DO NOTHING`. -/
def hasAnswer (answers : List Answer) (pid qid : Nat) : Bool :=
  answers.any fun a => a.participantId == pid && a.questionId == qid

/-- `submit_answer` after `verify_player` has yielded participant `pid`:
404 when the question id is unknown; otherwise judge, score, and insert with
`ON CONFLICT DO NOTHING` (the state is unchanged when the (participant,
question) pair already has a row), returning `{"status": "ok"}` either way. -/
def submit_answer (st : QuizState) (pid : Nat) (data : AnswerPayload)
    (nowDate : Int) : QuizState × Except HttpError String :=
  match st.questions.find? (fun q => q.id == data.question_id) with
  | none => (st, Except.error { status := 404, detail := "السؤال غير موجود" })
  | some q =>
    let isCorrect := judgeAnswer q.questionType data.selected_answer q.correctAnswer
    let points := computePoints isCorrect data.time_taken
    let st2 :=
      if hasAnswer st.answers pid data.question_id then st
      else { st with answers := st.answers ++
        [{ participantId := pid, questionId := data.question_id,
           selectedAnswer := data.selected_answer, isCorrect := isCorrect,
           timeTaken := data.time_taken, points := points,
           answeredDate := nowDate }] }
    (st2, Except.ok "ok")

/-- The database invariant enforced by `UNIQUE(participant_id, question_id)`:
no two `answers` rows share a (participant, question) pair. -/
def pairUnique (answers : List Answer) : Prop :=
  List.Pairwise
    (fun a b => ¬(a.participantId = b.participantId ∧ a.questionId = b.questionId))
    answers

instance (answers : List Answer) : Decidable (pairUnique answers) := by
  unfold pairUnique
  infer_instance

/-- One aggregated leaderboard row (before ranking). -/
structure LBRow where
  points : Int
  totalAnswered : Nat
  deriving DecidableEq

/-- One entry of the `/api/leaderboard` response. -/
structure LBEntry where
  rank : Nat
  points : Int
  totalAnswered : Nat
  deriving DecidableEq

/-- The grouped aggregate of the leaderboard query for one participant id:
`COALESCE(SUM(a.points), 0)` and `COUNT(a.id)` over that participant's
answers. -/
def participantRow (answers : List Answer) (pid : Nat) : LBRow :=
  let mine := answers.filter fun a => a.participantId == pid
  { points := mine.foldl (fun s a => s + a.points) 0, totalAnswered := mine.length }

/-- The `ORDER BY points DESC, total_answered DESC` comparison. -/
def lbLE (a b : LBRow) : Prop :=
  b.points < a.points ∨ (a.points = b.points ∧ b.totalAnswered ≤ a.totalAnswered)

instance : DecidableRel lbLE := fun a b => by
  unfold lbLE
  infer_instance

instance : IsTotal LBRow lbLE :=
  ⟨by intro a b; unfold lbLE; omega⟩

instance : IsTrans LBRow lbLE :=
  ⟨by intro a b c; unfold lbLE; omega⟩

/-- The rows surviving `GROUP BY p.id HAVING COUNT(a.id) > 0`: one aggregate
row per participant having at least one answer. -/
def answeredRows (st : QuizState) : List LBRow :=
  (st.participants.map fun p => participantRow st.answers p.id).filter
    fun r => decide (0 < r.totalAnswered)

/-- The `for i, r in enumerate(rows)` loop attaching `rank = i + 1`,
started at index `i`. -/
def addRanksFrom : Nat → List LBRow → List LBEntry
  | _, [] => []
  | i, r :: rs =>
    { rank := i + 1, points := r.points, totalAnswered := r.totalAnswered } ::
      addRanksFrom (i + 1) rs

/-- `public_leaderboard` (`GET /api/leaderboard`): aggregate, keep answered
participants, `ORDER BY points DESC, total_answered DESC`, `LIMIT 10`, and
attach 1-based positional ranks. -/
def public_leaderboard (st : QuizState) : List LBEntry :=
  addRanksFrom 0 ((List.insertionSort lbLE (answeredRows st)).take 10)

/-- `SELECT COALESCE(SUM(is_correct), 0) FROM answers`. -/
def sumCorrect (answers : List Answer) : Nat :=
  answers.foldl (fun s a => s + a.isCorrect) 0

/-- Response of `GET /api/admin/stats`. -/
structure StatsOut where
  totalParticipants : Nat
  totalAnswers : Nat
  correctAnswers : Nat
  todayParticipants : Nat
  accuracyRate : ℚ
  deriving DecidableEq

/-- Python `round` on reals: round half to even (banker's rounding). -/
def roundHalfEven (x : ℚ) : Int :=
  if x - ⌊x⌋ < 1 / 2 then ⌊x⌋
  else if 1 / 2 < x - ⌊x⌋ then ⌊x⌋ + 1
  else if Even (⌊x⌋ : Int) then ⌊x⌋ else ⌊x⌋ + 1

/-- Python `round(x, 1)`. -/
def roundTo1 (x : ℚ) : ℚ :=
  (roundHalfEven (x * 10) : ℚ) / 10

/-- `get_stats` (`GET /api/admin/stats`): row counts, correct-answer sum,
distinct participants active today, and
`round((correct / total * 100) if total else 0, 1)`. -/
def get_stats (st : QuizState) (today : Int) : StatsOut :=
  let total := st.answers.length
  let correct := sumCorrect st.answers
  { totalParticipants := st.participants.length
    totalAnswers := total
    correctAnswers := correct
    todayParticipants :=
      (((st.answers.filter fun a => a.answeredDate == today).map
        fun a => a.participantId).dedup).length
    accuracyRate := roundTo1 (if total ≠ 0 then (correct : ℚ) / (total : ℚ) * 100 else 0) }

/-- `INSERT INTO quiz_settings ... ON CONFLICT (key) DO UPDATE SET value`. -/
def upsertSetting (settings : List (String × String)) (k v : String) :
    List (String × String) :=
  if settings.any fun kv => kv.1 == k then
    settings.map fun kv => if kv.1 == k then (k, v) else kv
  else settings ++ [(k, v)]

/-- `SELECT value FROM quiz_settings WHERE key=%s` on a raw settings table. -/
def lookupSetting (settings : List (String × String)) (k : String) : Option String :=
  (settings.find? fun kv => kv.1 == k).map fun kv => kv.2

/-- `get_setting`: value of a key, `none` when the row is missing. -/
def get_setting (st : QuizState) (k : String) : Option String :=
  lookupSetting st.settings k

/-- One guarded upsert of `update_settings` for a string field: Python
truthiness (`if data.quiz_open_time:`) skips both `None` and `""`. -/
def applyTimeSetting (settings : List (String × String)) (k : String)
    (o : Option String) : List (String × String) :=
  match o with
  | some v => if v = "" then settings else upsertSetting settings k v
  | none => settings

/-- The guarded upsert of `update_settings` for `current_day`: guarded by
`is not None`, stored via `str(...)`. -/
def applyDaySetting (settings : List (String × String)) (o : Option Int) :
    List (String × String) :=
  match o with
  | some d => upsertSetting settings "current_day" (toString d)
  | none => settings

/-- `update_settings` (`PUT /api/admin/settings`): the three guarded upserts
run in sequence on the settings table; nothing else changes. -/
def update_settings (st : QuizState) (data : SettingsModel) : QuizState :=
  { st with
    settings :=
      applyDaySetting
        (applyTimeSetting
          (applyTimeSetting st.settings "quiz_open_time" data.quiz_open_time)
          "quiz_close_time" data.quiz_close_time)
        data.current_day }

/-- Status code of an error result, `none` on success (used to state which
HTTP status a handler fails with). -/
def errStatus {α : Type} : Except HttpError α → Option Nat
  | Except.error e => some e.status
  | Except.ok _ => none

/-- Concrete rows used to evaluate the handlers on closed inputs. -/
def sampleQuestion : Question :=
  { id := 1, day := 1, questionType := "multiple_choice", questionText := "سؤال",
    options := ["أ", "ب"], correctAnswer := "أ", category := "general", orderNum := 1 }

/-- A concrete `fill_blank` question. -/
def sampleFillBlank : Question :=
  { id := 2, day := 1, questionType := "fill_blank", questionText := "أكمل",
    options := [], correctAnswer := "Mecca", category := "general", orderNum := 2 }

/-- A concrete participant row. -/
def sampleParticipant : Participant :=
  { id := 7, name := "سارة", phone := "0500000001", passwordHash := "h1" }

/-- A concrete store with one participant, two questions, one live session. -/
def sampleState : QuizState :=
  { participants := [sampleParticipant],
    questions := [sampleQuestion, sampleFillBlank],
    answers := [],
    sessions := [{ id := "tok1", participantId := 7, expiresAt := 100 }],
    settings := [("quiz_open_time", "21:00"), ("current_day", "1"),
                 ("quiz_close_time", "22:45")] }

/-- A concrete stand-in for `bcrypt.checkpw` in closed evaluations. -/
def loginCheck : String → String → Bool :=
  fun pw h => pw == "secret" && h == "h1"

/-- Shorthand for building concrete `answers` rows. -/
def answerRow (pid qid c : Nat) (pts : Int) : Answer :=
  { participantId := pid, questionId := qid, selectedAnswer := "x", isCorrect := c,
    timeTaken := 30, points := pts, answeredDate := 0 }

/-- `sampleState` with one answer already recorded for pair (7, 1). -/
def stWithAnswer : QuizState :=
  { sampleState with answers := [answerRow 7 1 1 85] }

/-- Concrete store with three answers of which one is correct. -/
def stC8 : QuizState :=
  { participants := [], questions := [],
    answers := [answerRow 1 1 1 10, answerRow 1 2 0 0, answerRow 2 1 0 0],
    sessions := [], settings := [] }

/-- Concrete store whose settings table has one row. -/
def stC9 : QuizState :=
  { participants := [], questions := [], answers := [], sessions := [],
    settings := [("quiz_open_time", "21:00")] }

/-- Concrete store for evaluating the leaderboard: participant 2 has two
correct answers totalling 150 points, participant 1 one answer worth 100,
participant 3 none. -/
def stC4 : QuizState :=
  { participants := [
      { id := 1, name := "أمل", phone := "0501", passwordHash := "h1" },
      { id := 2, name := "بدر", phone := "0502", passwordHash := "h2" },
      { id := 3, name := "جنى", phone := "0503", passwordHash := "h3" }],
    questions := [],
    answers := [answerRow 1 1 1 100, answerRow 2 1 1 85, answerRow 2 2 1 65],
    sessions := [], settings := [] }

/-! ## Theorems -/

/-- The scoring line written with the spec's orientation of the product and
an `if` on the 0/1 correctness flag. -/
theorem computePoints_eq (j : Nat) (t : Int) :
    computePoints j t = if j = 0 then 0 else max 10 (100 - 3 * t) := by
  unfold computePoints
  rcases Nat.eq_zero_or_pos j with h | h
  · simp [h]
  · have hj : j ≠ 0 := by omega
    simp [hj]
    rw [mul_comm]

/-- On a fresh (participant, question) pair and an existing question,
`submit_answer` appends exactly one row built from the judge and the scoring
formula, and succeeds. -/
theorem submit_answer_fresh (st : QuizState) (pid : Nat) (data : AnswerPayload)
    (nowDate : Int) (q : Question)
    (hq : st.questions.find? (fun x => x.id == data.question_id) = some q)
    (hfresh : hasAnswer st.answers pid data.question_id = false) :
    submit_answer st pid data nowDate =
      ({ st with answers := st.answers ++
        [{ participantId := pid, questionId := data.question_id,
           selectedAnswer := data.selected_answer,
           isCorrect := judgeAnswer q.questionType data.selected_answer q.correctAnswer,
           timeTaken := data.time_taken,
           points := computePoints
             (judgeAnswer q.questionType data.selected_answer q.correctAnswer)
             data.time_taken,
           answeredDate := nowDate }] }, Except.ok "ok") := by
  unfold submit_answer
  rw [hq]
  simp [hfresh]

/-- C1: for every answer submission, an incorrect answer stores 0 points and
a correct answer stores `max(10, 100 - 3*time_taken)`; in particular the
score of a correct answer is 100 at 0 seconds, 10 at 30 and at 100 seconds,
monotonically non-increasing in elapsed time, and never below 10. -/
theorem c1_speed_scoring (st : QuizState) (pid : Nat) (data : AnswerPayload)
    (nowDate : Int) (q : Question)
    (hq : st.questions.find? (fun x => x.id == data.question_id) = some q)
    (hfresh : hasAnswer st.answers pid data.question_id = false) :
    (submit_answer st pid data nowDate).1.answers =
      st.answers ++
        [{ participantId := pid, questionId := data.question_id,
           selectedAnswer := data.selected_answer,
           isCorrect := judgeAnswer q.questionType data.selected_answer q.correctAnswer,
           timeTaken := data.time_taken,
           points :=
             if judgeAnswer q.questionType data.selected_answer q.correctAnswer = 0
             then 0 else max 10 (100 - 3 * data.time_taken),
           answeredDate := nowDate }] ∧
    computePoints 1 0 = 100 ∧
    computePoints 1 30 = 10 ∧
    computePoints 1 100 = 10 ∧
    (∀ t u : Int, t ≤ u → computePoints 1 u ≤ computePoints 1 t) ∧
    (∀ t : Int, 10 ≤ computePoints 1 t) ∧
    (∀ t : Int, computePoints 0 t = 0) := by
  refine ⟨?_, by decide, by decide, by decide, ?_, ?_, ?_⟩
  · rw [submit_answer_fresh st pid data nowDate q hq hfresh, computePoints_eq]
  · intro t u h
    rw [computePoints_eq, computePoints_eq]
    simp only [OfNat.ofNat_ne_zero, if_false, one_ne_zero]
    omega
  · intro t
    rw [computePoints_eq]
    simp only [one_ne_zero, if_false]
    omega
  · intro t
    rw [computePoints_eq]
    simp

/-- Witness for C1 on concrete inputs. -/
theorem c1_speed_scoring_witness :
    (submit_answer sampleState 7
        { question_id := 1, selected_answer := "أ", time_taken := 5 } 3).1.answers =
      [{ participantId := 7, questionId := 1, selectedAnswer := "أ", isCorrect := 1,
         timeTaken := 5, points := 85, answeredDate := 3 }] ∧
    computePoints 1 0 = 100 ∧ computePoints 1 30 = 10 ∧ computePoints 1 100 = 10 ∧
    computePoints 1 40 ≤ computePoints 1 20 ∧ 10 ≤ computePoints 1 77 ∧
    computePoints 0 5 = 0 := by
  have h := c1_speed_scoring sampleState 7
    { question_id := 1, selected_answer := "أ", time_taken := 5 } 3 sampleQuestion
    (by decide) (by decide)
  refine ⟨?_, h.2.1, h.2.2.1, h.2.2.2.1, h.2.2.2.2.1 20 40 (by decide),
    h.2.2.2.2.2.1 77, h.2.2.2.2.2.2 5⟩
  rw [h.1]
  decide

/-- C10: `time_taken` undergoes no range validation — for a correct answer
with any negative `time_taken` the appended row stores
`max(10, 100 - 3*time_taken)`, which exceeds 100; and for every integer
`time_taken` the stored points of a correct answer follow that formula. -/
theorem c10_negative_time_taken (st : QuizState) (pid : Nat) (data : AnswerPayload)
    (nowDate : Int) (q : Question)
    (hq : st.questions.find? (fun x => x.id == data.question_id) = some q)
    (hfresh : hasAnswer st.answers pid data.question_id = false)
    (hcorrect : judgeAnswer q.questionType data.selected_answer q.correctAnswer = 1)
    (hneg : data.time_taken < 0) :
    (submit_answer st pid data nowDate).1.answers =
      st.answers ++
        [{ participantId := pid, questionId := data.question_id,
           selectedAnswer := data.selected_answer, isCorrect := 1,
           timeTaken := data.time_taken,
           points := max 10 (100 - 3 * data.time_taken), answeredDate := nowDate }] ∧
    100 < max 10 (100 - 3 * data.time_taken) ∧
    (∀ (j : Nat) (t : Int), computePoints j t = if j = 0 then 0 else max 10 (100 - 3 * t)) := by
  refine ⟨?_, by omega, fun j t => computePoints_eq j t⟩
  rw [submit_answer_fresh st pid data nowDate q hq hfresh, hcorrect, computePoints_eq]
  simp

/-- Witness for C10 on concrete inputs: `time_taken = -5` stores 115 points. -/
theorem c10_negative_time_taken_witness :
    (submit_answer sampleState 7
        { question_id := 1, selected_answer := "أ", time_taken := -5 } 3).1.answers =
      [{ participantId := 7, questionId := 1, selectedAnswer := "أ", isCorrect := 1,
         timeTaken := -5, points := 115, answeredDate := 3 }] ∧
    (100 : Int) < max 10 (100 - 3 * (-5 : Int)) := by
  have h := c10_negative_time_taken sampleState 7
    { question_id := 1, selected_answer := "أ", time_taken := -5 } 3 sampleQuestion
    (by decide) (by decide) (by decide) (by decide)
  refine ⟨?_, h.2.1⟩
  rw [h.1]
  decide

/-- C2: for every participant and question at most one answer row is ever
recorded (a submission preserves the pair-uniqueness invariant), and a
submission for a pair that already has a recorded answer leaves the store
unchanged and still returns success. -/
theorem c2_first_answer_wins (st : QuizState) (pid : Nat) (data : AnswerPayload)
    (nowDate : Int) :
    (pairUnique st.answers → pairUnique (submit_answer st pid data nowDate).1.answers) ∧
    (∀ q, st.questions.find? (fun x => x.id == data.question_id) = some q →
      hasAnswer st.answers pid data.question_id = true →
      submit_answer st pid data nowDate = (st, Except.ok "ok")) := by
  constructor
  · intro hu
    unfold submit_answer
    cases hfind : st.questions.find? (fun x => x.id == data.question_id) with
    | none => exact hu
    | some q =>
      by_cases hdup : hasAnswer st.answers pid data.question_id
      · simp only [hdup, if_true]
        exact hu
      · simp only [Bool.not_eq_true] at hdup
        simp only [hdup, Bool.false_eq_true, if_false]
        unfold pairUnique at hu ⊢
        rw [List.pairwise_append]
        refine ⟨hu, by simp, ?_⟩
        intro a ha b hb
        simp only [List.mem_singleton] at hb
        subst hb
        simp only [hasAnswer, List.any_eq_false, Bool.and_eq_true, beq_iff_eq,
          not_and] at hdup
        intro hcon
        exact hdup a ha hcon.1 hcon.2
  · intro q hq hdup
    unfold submit_answer
    rw [hq]
    simp [hdup]

/-- Witness for C2 on concrete inputs: a second submission for pair (7, 1)
is a silent successful no-op, and uniqueness is preserved. -/
theorem c2_first_answer_wins_witness :
    submit_answer stWithAnswer 7
      { question_id := 1, selected_answer := "ب", time_taken := 4 } 9 =
      (stWithAnswer, Except.ok "ok") ∧
    pairUnique (submit_answer stWithAnswer 7
      { question_id := 1, selected_answer := "ب", time_taken := 4 } 9).1.answers := by
  have h := c2_first_answer_wins stWithAnswer 7
    { question_id := 1, selected_answer := "ب", time_taken := 4 } 9
  exact ⟨h.2 sampleQuestion (by decide) (by decide), h.1 (by decide)⟩

/-- C5: a submission for a `fill_blank` question is judged correct iff the
submitted answer equals the stored correct answer after trimming and
lowercasing both sides; for every other question type it is judged correct
iff it is exactly equal; and the judged flag is what `submit_answer` stores
in the `is_correct` column. -/
theorem c5_correctness_comparison (qtype s c : String) :
    (qtype = "fill_blank" →
      (judgeAnswer qtype s c = 1 ↔ pyLower (pyStrip s) = pyLower (pyStrip c))) ∧
    (qtype ≠ "fill_blank" → (judgeAnswer qtype s c = 1 ↔ s = c)) ∧
    (∀ (st : QuizState) (pid : Nat) (data : AnswerPayload) (nowDate : Int)
        (q : Question),
      st.questions.find? (fun x => x.id == data.question_id) = some q →
      hasAnswer st.answers pid data.question_id = false →
      (submit_answer st pid data nowDate).1.answers =
        st.answers ++
          [{ participantId := pid, questionId := data.question_id,
             selectedAnswer := data.selected_answer,
             isCorrect := judgeAnswer q.questionType data.selected_answer q.correctAnswer,
             timeTaken := data.time_taken,
             points := computePoints
               (judgeAnswer q.questionType data.selected_answer q.correctAnswer)
               data.time_taken,
             answeredDate := nowDate }]) := by
  refine ⟨?_, ?_, ?_⟩
  · intro h
    unfold judgeAnswer
    rw [if_pos h]
    by_cases hc : s.trim.toLower = c.trim.toLower
    · simp [hc]
    · simp [hc]
  · intro h
    unfold judgeAnswer
    rw [if_neg h]
    by_cases hc : s = c
    · simp [hc]
    · simp [hc]
  · intro st pid data nowDate q hq hfresh
    rw [submit_answer_fresh st pid data nowDate q hq hfresh]

/-- Witness for C5 on concrete inputs: a `fill_blank` answer differing only
in case and surrounding whitespace is judged correct and stored as such; an
exact-match type is case-sensitive. -/
theorem c5_correctness_comparison_witness :
    judgeAnswer "fill_blank" "  MECCA " "Mecca" = 1 ∧
    judgeAnswer "multiple_choice" "mecca" "Mecca" ≠ 1 ∧
    (submit_answer sampleState 7
        { question_id := 2, selected_answer := " MECCA  ", time_taken := 12 } 4).1.answers =
      [{ participantId := 7, questionId := 2, selectedAnswer := " MECCA  ",
         isCorrect := 1, timeTaken := 12, points := 64, answeredDate := 4 }] := by
  have h1 := ((c5_correctness_comparison "fill_blank" "  MECCA " "Mecca").1 rfl).mpr
    (by decide)
  have h2 : judgeAnswer "multiple_choice" "mecca" "Mecca" ≠ 1 := by
    intro hcon
    have hmp := ((c5_correctness_comparison "multiple_choice" "mecca" "Mecca").2.1
      (by decide)).mp hcon
    exact absurd hmp (by decide)
  have h3 := (c5_correctness_comparison "x" "y" "z").2.2 sampleState 7
    { question_id := 2, selected_answer := " MECCA  ", time_taken := 12 } 4
    sampleFillBlank (by decide) (by decide)
  refine ⟨h1, h2, ?_⟩
  rw [h3]
  decide

/-- C3: session validation 401s when the token is absent or unknown; when
the token is found but expired it deletes the session row as a side effect
and 401s with the expired-session message; otherwise it returns the bound
participant and leaves the store unchanged. -/
theorem c3_validate_session (st : QuizState) (now : Int) (cookie : String) :
    (verify_player st now "" =
      (st, Except.error { status := 401, detail := "غير مصرّح" })) ∧
    (cookie ≠ "" → st.sessions.find? (fun s => s.id == cookie) = none →
      verify_player st now cookie =
        (st, Except.error { status := 401, detail := "جلسة غير صالحة" })) ∧
    (∀ s p, cookie ≠ "" →
      st.sessions.find? (fun x => x.id == cookie) = some s →
      st.participants.find? (fun x => x.id == s.participantId) = some p →
      s.expiresAt < now →
      verify_player st now cookie =
        ({ st with sessions := st.sessions.filter (fun t => !(t.id == cookie)) },
         Except.error { status := 401,
                        detail := "انتهت صلاحية الجلسة، سجّل دخولك مجدداً" })) ∧
    (∀ s p, cookie ≠ "" →
      st.sessions.find? (fun x => x.id == cookie) = some s →
      st.participants.find? (fun x => x.id == s.participantId) = some p →
      ¬(s.expiresAt < now) →
      verify_player st now cookie =
        (st, Except.ok { participant_id := s.participantId, name := p.name })) := by
  refine ⟨by simp [verify_player], ?_, ?_, ?_⟩
  · intro hne hfind
    simp only [verify_player, if_neg hne, hfind]
  · intro s p hne hs hp hexp
    simp only [verify_player, if_neg hne, hs, hp, if_pos hexp]
  · intro s p hne hs hp hexp
    simp only [verify_player, if_neg hne, hs, hp, if_neg hexp]

/-- Witness for C3 on concrete inputs: missing cookie, unknown token,
expired token (whose session row is deleted), and a valid token. -/
theorem c3_validate_session_witness :
    verify_player sampleState 50 "" =
      (sampleState, Except.error { status := 401, detail := "غير مصرّح" }) ∧
    verify_player sampleState 50 "zz" =
      (sampleState, Except.error { status := 401, detail := "جلسة غير صالحة" }) ∧
    verify_player sampleState 200 "tok1" =
      ({ sampleState with sessions := [] },
       Except.error { status := 401,
                      detail := "انتهت صلاحية الجلسة، سجّل دخولك مجدداً" }) ∧
    verify_player sampleState 50 "tok1" =
      (sampleState, Except.ok { participant_id := 7, name := "سارة" }) := by
  refine ⟨(c3_validate_session sampleState 50 "").1,
    (c3_validate_session sampleState 50 "zz").2.1 (by decide) (by decide), ?_, ?_⟩
  · have h := (c3_validate_session sampleState 200 "tok1").2.2.1
      { id := "tok1", participantId := 7, expiresAt := 100 } sampleParticipant
      (by decide) (by decide) (by decide) (by decide)
    rw [h]
    decide
  · have h := (c3_validate_session sampleState 50 "tok1").2.2.2
      { id := "tok1", participantId := 7, expiresAt := 100 } sampleParticipant
      (by decide) (by decide) (by decide) (by decide)
    rw [h]
    rfl

/-- `addRanksFrom` keeps the list length. -/
theorem addRanksFrom_length (i : Nat) (rows : List LBRow) :
    (addRanksFrom i rows).length = rows.length := by
  induction rows generalizing i with
  | nil => rfl
  | cons r rs ih => simp [addRanksFrom, ih]

/-- The entry at position `j` of `addRanksFrom i rows` has rank `i + j + 1`. -/
theorem addRanksFrom_rank (rows : List LBRow) (i j : Nat)
    (h : j < (addRanksFrom i rows).length) :
    ((addRanksFrom i rows).get ⟨j, h⟩).rank = i + j + 1 := by
  induction rows generalizing i j with
  | nil => simp [addRanksFrom] at h
  | cons r rs ih =>
    cases j with
    | zero => rfl
    | succ j2 =>
      have h2 : j2 < (addRanksFrom (i + 1) rs).length := by
        have hl := h
        simp only [addRanksFrom, List.length_cons] at hl
        omega
      have hrec := ih (i + 1) j2 h2
      have hg : ((addRanksFrom i (r :: rs)).get ⟨j2 + 1, h⟩) =
          ((addRanksFrom (i + 1) rs).get ⟨j2, h2⟩) := rfl
      rw [hg, hrec]
      omega

/-- Every entry of `addRanksFrom` carries the points and answer count of
some input row. -/
theorem addRanksFrom_mem (rows : List LBRow) (i : Nat) (e : LBEntry)
    (he : e ∈ addRanksFrom i rows) :
    ∃ r ∈ rows, e.points = r.points ∧ e.totalAnswered = r.totalAnswered := by
  induction rows generalizing i with
  | nil => simp [addRanksFrom] at he
  | cons r rs ih =>
    simp only [addRanksFrom, List.mem_cons] at he
    rcases he with he | he
    · exact ⟨r, List.mem_cons_self r rs, by rw [he], by rw [he]⟩
    · obtain ⟨r2, hr2, h1, h2⟩ := ih (i + 1) he
      exact ⟨r2, List.mem_cons_of_mem r hr2, h1, h2⟩

/-- `addRanksFrom` transports a pairwise order on the rows to the entries. -/
theorem addRanksFrom_pairwise (R : LBRow → LBRow → Prop) (rows : List LBRow)
    (h : List.Pairwise R rows) (i : Nat) :
    List.Pairwise
      (fun a b : LBEntry =>
        R { points := a.points, totalAnswered := a.totalAnswered }
          { points := b.points, totalAnswered := b.totalAnswered })
      (addRanksFrom i rows) := by
  induction h generalizing i with
  | nil => exact List.Pairwise.nil
  | cons hr hrs ih =>
    refine List.Pairwise.cons ?_ (ih (i + 1))
    intro e he
    obtain ⟨r2, hr2, hpts, htot⟩ := addRanksFrom_mem _ (i + 1) e he
    have hre : ({ points := e.points, totalAnswered := e.totalAnswered } : LBRow) = r2 := by
      rw [hpts, htot]
    rw [hre]
    exact hr r2 hr2

/-- C4: the public leaderboard is empty when no answers exist; otherwise it
is the rank-decorated 10-entry prefix of a sorted permutation of the
aggregate rows of exactly the participants having at least one answer,
sorted by points descending with ties broken by answer count descending,
with 1-based positional ranks. -/
theorem c4_public_leaderboard (st : QuizState) :
    (st.answers = [] → public_leaderboard st = []) ∧
    (∃ l : List LBRow, List.Perm l (answeredRows st) ∧ List.Sorted lbLE l ∧
      public_leaderboard st = addRanksFrom 0 (l.take 10)) ∧
    (public_leaderboard st).length ≤ 10 ∧
    List.Pairwise
      (fun a b : LBEntry =>
        b.points < a.points ∨ (a.points = b.points ∧ b.totalAnswered ≤ a.totalAnswered))
      (public_leaderboard st) ∧
    (∀ j (h : j < (public_leaderboard st).length),
      ((public_leaderboard st).get ⟨j, h⟩).rank = j + 1) ∧
    (∀ e, e ∈ public_leaderboard st → ∃ p, p ∈ st.participants ∧
      0 < (participantRow st.answers p.id).totalAnswered ∧
      e.points = (participantRow st.answers p.id).points ∧
      e.totalAnswered = (participantRow st.answers p.id).totalAnswered) := by
  refine ⟨?_, ?_, ?_, ?_, ?_, ?_⟩
  · intro h
    have hrows : answeredRows st = [] := by
      unfold answeredRows participantRow
      rw [h]
      simp
    unfold public_leaderboard
    rw [hrows]
    rfl
  · exact ⟨List.insertionSort lbLE (answeredRows st),
      List.perm_insertionSort lbLE (answeredRows st),
      List.sorted_insertionSort lbLE (answeredRows st), rfl⟩
  · unfold public_leaderboard
    rw [addRanksFrom_length]
    simp [List.length_take]
  · have hs := List.sorted_insertionSort lbLE (answeredRows st)
    have htake : List.Pairwise lbLE ((List.insertionSort lbLE (answeredRows st)).take 10) :=
      hs.sublist (List.take_sublist 10 _)
    have hp := addRanksFrom_pairwise lbLE _ htake 0
    simpa [lbLE] using hp
  · intro j h
    simpa using addRanksFrom_rank ((List.insertionSort lbLE (answeredRows st)).take 10) 0 j h
  · intro e he
    obtain ⟨r, hr, h1, h2⟩ := addRanksFrom_mem _ 0 e he
    have hr2 : r ∈ List.insertionSort lbLE (answeredRows st) := List.mem_of_mem_take hr
    have hr3 : r ∈ answeredRows st :=
      (List.perm_insertionSort lbLE (answeredRows st)).mem_iff.mp hr2
    unfold answeredRows at hr3
    obtain ⟨hmem, hpred⟩ := List.mem_filter.mp hr3
    obtain ⟨p, hp, hpe⟩ := List.mem_map.mp hmem
    refine ⟨p, hp, ?_, ?_, ?_⟩
    · rw [hpe]
      simpa using hpred
    · rw [hpe]
      exact h1
    · rw [hpe]
      exact h2

/-- Witness for C4 on concrete inputs: an answerless store yields an empty
leaderboard, and a populated store yields at most 10 entries. -/
theorem c4_public_leaderboard_witness :
    public_leaderboard sampleState = [] ∧
    (public_leaderboard stC4).length ≤ 10 := by
  exact ⟨(c4_public_leaderboard sampleState).1 rfl,
    (c4_public_leaderboard stC4).2.2.1⟩

/-- When some participant already holds the (stripped) phone of the request,
`register` leaves the store unchanged and fails with status 400. -/
theorem register_dup (st : QuizState) (data : RegisterModel)
    (hashpw : String → String) (newId : Nat) (sessionId : String) (now dur : Int)
    (h : ∃ p, p ∈ st.participants ∧ p.phone = pyStrip data.phone) :
    (register st data hashpw newId sessionId now dur).1 = st ∧
    errStatus (register st data hashpw newId sessionId now dur).2 = some 400 := by
  unfold register
  split
  · exact ⟨rfl, rfl⟩
  · cases hfind : st.participants.find? (fun p => p.phone == pyStrip data.phone) with
    | none =>
      exfalso
      obtain ⟨p, hp, hph⟩ := h
      have hsome : (st.participants.find? (fun q => q.phone == pyStrip data.phone)).isSome :=
        List.find?_isSome.mpr ⟨p, hp, by simp [hph]⟩
      rw [hfind] at hsome
      simp at hsome
    | some q =>
      exact ⟨rfl, rfl⟩

/-- When `register` succeeds, the new store's participant table is the old
one with exactly the new (stripped, hashed) row appended. -/
theorem register_ok_participants (st : QuizState) (data : RegisterModel)
    (hashpw : String → String) (newId : Nat) (sessionId : String) (now dur : Int)
    (r : PlayerInfo)
    (h : (register st data hashpw newId sessionId now dur).2 = Except.ok r) :
    (register st data hashpw newId sessionId now dur).1.participants =
      st.participants ++
        [{ id := newId, name := pyStrip data.name, phone := pyStrip data.phone,
           passwordHash := hashpw data.password }] := by
  unfold register at h ⊢
  split at h
  · simp at h
  · next hc =>
    rw [if_neg hc]
    cases hfind : st.participants.find? (fun p => p.phone == pyStrip data.phone) with
    | none => rfl
    | some q =>
      rw [hfind] at h
      simp at h

/-- C6: whenever some participant is already registered with phone P, a
register request for phone P fails with status 400 and changes nothing (in
particular it creates no participant and no session); consequently any
second registration of the phone of a successful registration fails with
status 400 and changes nothing. -/
theorem c6_duplicate_registration (st : QuizState) (data : RegisterModel)
    (hashpw : String → String) (newId : Nat) (sessionId : String) (now dur : Int) :
    ((∃ p, p ∈ st.participants ∧ p.phone = pyStrip data.phone) →
      (register st data hashpw newId sessionId now dur).1 = st ∧
      errStatus (register st data hashpw newId sessionId now dur).2 = some 400) ∧
    (∀ r, (register st data hashpw newId sessionId now dur).2 = Except.ok r →
      ∀ (data2 : RegisterModel) (hashpw2 : String → String) (newId2 : Nat)
        (sessionId2 : String) (now2 dur2 : Int), data2.phone = data.phone →
        (register (register st data hashpw newId sessionId now dur).1 data2 hashpw2
            newId2 sessionId2 now2 dur2).1 =
          (register st data hashpw newId sessionId now dur).1 ∧
        errStatus (register (register st data hashpw newId sessionId now dur).1 data2
            hashpw2 newId2 sessionId2 now2 dur2).2 = some 400) := by
  constructor
  · exact register_dup st data hashpw newId sessionId now dur
  · intro r hok data2 hashpw2 newId2 sessionId2 now2 dur2 hph
    apply register_dup
    have hmem : ({ id := newId, name := pyStrip data.name,
                   phone := pyStrip data.phone,
                   passwordHash := hashpw data.password } : Participant) ∈
        (register st data hashpw newId sessionId now dur).1.participants := by
      rw [register_ok_participants st data hashpw newId sessionId now dur r hok]
      simp
    exact ⟨_, hmem, by rw [hph]⟩

/-- Witness for C6 on concrete inputs: re-registering the already-present
phone fails with 400 and leaves the store as it was; registering a fresh
phone succeeds and re-registering it then fails with 400. -/
theorem c6_duplicate_registration_witness :
    (register sampleState { name := "نور", phone := "0500000001", password := "p" }
        (fun x => x) 9 "s9" 0 5).1 = sampleState ∧
    errStatus (register sampleState
        { name := "نور", phone := "0500000001", password := "p" }
        (fun x => x) 9 "s9" 0 5).2 = some 400 ∧
    (register (register sampleState
        { name := "نور", phone := "0555", password := "p" }
        (fun x => x) 9 "s9" 0 5).1
        { name := "هدى", phone := "0555", password := "q" }
        (fun x => x) 10 "s10" 1 5).1 =
      (register sampleState { name := "نور", phone := "0555", password := "p" }
        (fun x => x) 9 "s9" 0 5).1 ∧
    errStatus (register (register sampleState
        { name := "نور", phone := "0555", password := "p" }
        (fun x => x) 9 "s9" 0 5).1
        { name := "هدى", phone := "0555", password := "q" }
        (fun x => x) 10 "s10" 1 5).2 = some 400 := by
  have h1 := (c6_duplicate_registration sampleState
    { name := "نور", phone := "0500000001", password := "p" }
    (fun x => x) 9 "s9" 0 5).1 (by decide)
  have h2 := (c6_duplicate_registration sampleState
    { name := "نور", phone := "0555", password := "p" }
    (fun x => x) 9 "s9" 0 5).2 { participant_id := 9, name := "نور" } (by decide)
    { name := "هدى", phone := "0555", password := "q" }
    (fun x => x) 10 "s10" 1 5 rfl
  exact ⟨h1.1, h1.2, h2.1, h2.2⟩

/-- C7: login 404s when the (non-blank) phone is unknown, 401s when the
password check fails against the stored hash, and otherwise appends exactly
one new session for the participant, leaving every existing session (and the
rest of the store) unchanged. -/
theorem c7_login_behaviour (st : QuizState) (data : LoginModel)
    (checkpw : String → String → Bool) (sessionId : String) (now dur : Int) :
    (pyStrip data.phone ≠ "" →
      st.participants.find? (fun p => p.phone == pyStrip data.phone) = none →
      login st data checkpw sessionId now dur =
        (st, Except.error { status := 404, detail := "رقم الجوال غير مسجّل، سجّل أولاً" })) ∧
    (∀ row, pyStrip data.phone ≠ "" →
      st.participants.find? (fun p => p.phone == pyStrip data.phone) = some row →
      checkpw data.password row.passwordHash = false →
      login st data checkpw sessionId now dur =
        (st, Except.error { status := 401, detail := "كلمة المرور غير صحيحة" })) ∧
    (∀ row, pyStrip data.phone ≠ "" →
      st.participants.find? (fun p => p.phone == pyStrip data.phone) = some row →
      row.passwordHash ≠ "" → checkpw data.password row.passwordHash = true →
      login st data checkpw sessionId now dur =
        ({ st with sessions := st.sessions ++
            [{ id := sessionId, participantId := row.id, expiresAt := now + dur }] },
         Except.ok { participant_id := row.id, name := row.name }) ∧
      (∀ s, s ∈ st.sessions →
        s ∈ (login st data checkpw sessionId now dur).1.sessions)) := by
  have hblank : ∀ hne : pyStrip data.phone ≠ "",
      ¬((data.phone = "" || pyStrip data.phone = "" : Bool) = true) := by
    intro hne hc
    simp only [Bool.or_eq_true, decide_eq_true_eq] at hc
    rcases hc with h | h
    · apply hne
      rw [h]
      rfl
    · exact hne h
  refine ⟨?_, ?_, ?_⟩
  · intro hne hfind
    unfold login
    rw [if_neg (hblank hne), hfind]
  · intro row hne hfind hcp
    have hcond : (decide (row.passwordHash = "") || !checkpw data.password row.passwordHash) = true := by
      simp [hcp]
    simp only [login, if_neg (hblank hne), hfind, hcond, if_true]
  · intro row hne hfind hhash hcp
    have heq : login st data checkpw sessionId now dur =
        ({ st with sessions := st.sessions ++
            [{ id := sessionId, participantId := row.id, expiresAt := now + dur }] },
         Except.ok { participant_id := row.id, name := row.name }) := by
      have hcond : (decide (row.passwordHash = "") || !checkpw data.password row.passwordHash) = false := by
        simp [hcp, hhash]
      simp only [login, if_neg (hblank hne), hfind, hcond, Bool.false_eq_true, if_false,
        create_session]
    refine ⟨heq, ?_⟩
    intro s hs
    rw [heq]
    simp [hs]

/-- Witness for C7 on concrete inputs: unknown phone 404s, wrong password
401s, correct password adds one session while keeping the old one. -/
theorem c7_login_behaviour_witness :
    login sampleState { phone := "0599", password := "secret" } loginCheck "s2" 10 20 =
      (sampleState,
       Except.error { status := 404, detail := "رقم الجوال غير مسجّل، سجّل أولاً" }) ∧
    login sampleState { phone := "0500000001", password := "bad" } loginCheck "s2" 10 20 =
      (sampleState, Except.error { status := 401, detail := "كلمة المرور غير صحيحة" }) ∧
    login sampleState { phone := "0500000001", password := "secret" } loginCheck "s2" 10 20 =
      ({ sampleState with sessions := sampleState.sessions ++
          [{ id := "s2", participantId := 7, expiresAt := 30 }] },
       Except.ok { participant_id := 7, name := "سارة" }) ∧
    ({ id := "tok1", participantId := 7, expiresAt := 100 } : Session) ∈
      (login sampleState { phone := "0500000001", password := "secret" }
        loginCheck "s2" 10 20).1.sessions := by
  have h1 := (c7_login_behaviour sampleState { phone := "0599", password := "secret" }
    loginCheck "s2" 10 20).1 (by decide) (by decide)
  have h2 := (c7_login_behaviour sampleState { phone := "0500000001", password := "bad" }
    loginCheck "s2" 10 20).2.1 sampleParticipant (by decide) (by decide) (by decide)
  have h3 := (c7_login_behaviour sampleState
    { phone := "0500000001", password := "secret" } loginCheck "s2" 10 20).2.2
    sampleParticipant (by decide) (by decide) (by decide) (by decide)
  refine ⟨h1, h2, ?_, ?_⟩
  · rw [h3.1]
    rfl
  · exact h3.2 { id := "tok1", participantId := 7, expiresAt := 100 } (by decide)

/-- Banker's rounding is within 1/2 of its argument. -/
theorem roundHalfEven_err (x : ℚ) : |(roundHalfEven x : ℚ) - x| ≤ 1 / 2 := by
  have h1 : (⌊x⌋ : ℚ) ≤ x := Int.floor_le x
  have h2 : x < ⌊x⌋ + 1 := Int.lt_floor_add_one x
  unfold roundHalfEven
  split_ifs with hA hB hC
  · rw [abs_le]
    constructor <;> linarith
  · rw [abs_le]
    constructor <;> push_cast <;> linarith
  · rw [abs_le]
    constructor <;> linarith
  · rw [abs_le]
    constructor <;> push_cast <;> linarith

/-- Rounding to one decimal is within 1/20 of the argument. -/
theorem roundTo1_err (x : ℚ) : |roundTo1 x - x| ≤ 1 / 20 := by
  have h := roundHalfEven_err (x * 10)
  unfold roundTo1
  rw [abs_le] at h ⊢
  constructor <;> linarith [h.1, h.2]

/-- C8 counterexample: with 3 recorded answers of which 1 is correct, the
reported accuracy is 33.3, not the exact value 100/3 — the handler rounds
`correct / total * 100` to one decimal, so the reported number is not always
equal to `correct / total * 100`. -/
theorem c8_accuracy_counterexample :
    (get_stats stC8 0).totalAnswers = 3 ∧
    (get_stats stC8 0).correctAnswers = 1 ∧
    (get_stats stC8 0).accuracyRate = 333 / 10 ∧
    (get_stats stC8 0).accuracyRate ≠ (1 : ℚ) / 3 * 100 := by
  have hfloor : ⌊((1 : ℚ) / 3 * 100 * 10)⌋ = 333 := by
    rw [Int.floor_eq_iff]
    constructor <;> norm_num
  have hacc : (get_stats stC8 0).accuracyRate = roundTo1 ((1 : ℚ) / 3 * 100) := by
    norm_num [get_stats, stC8, sumCorrect, answerRow]
  have hr : roundTo1 ((1 : ℚ) / 3 * 100) = 333 / 10 := by
    unfold roundTo1 roundHalfEven
    rw [hfloor]
    norm_num
  refine ⟨rfl, rfl, ?_, ?_⟩
  · rw [hacc, hr]
  · rw [hacc, hr]
    norm_num

/-- C8 (amended): the reported accuracy is `correct / total * 100` rounded
to one decimal place — hence within 1/20 of the exact ratio — and exactly 0
when no answers exist, with no division error. -/
theorem c8_accuracy_rounded (st : QuizState) (today : Int) :
    (st.answers.length = 0 → (get_stats st today).accuracyRate = 0) ∧
    (get_stats st today).accuracyRate =
      roundTo1 (if st.answers.length ≠ 0
        then (sumCorrect st.answers : ℚ) / (st.answers.length : ℚ) * 100 else 0) ∧
    (st.answers.length ≠ 0 →
      |(get_stats st today).accuracyRate -
        (sumCorrect st.answers : ℚ) / (st.answers.length : ℚ) * 100| ≤ 1 / 20) ∧
    (get_stats st today).totalAnswers = st.answers.length ∧
    (get_stats st today).correctAnswers = sumCorrect st.answers := by
  have hdef : (get_stats st today).accuracyRate =
      roundTo1 (if st.answers.length ≠ 0
        then (sumCorrect st.answers : ℚ) / (st.answers.length : ℚ) * 100 else 0) := rfl
  refine ⟨?_, hdef, ?_, rfl, rfl⟩
  · intro h
    have hne : ¬(st.answers.length ≠ 0) := fun hc => hc h
    rw [hdef, if_neg hne]
    norm_num [roundTo1, roundHalfEven]
  · intro h
    rw [hdef, if_pos h]
    exact roundTo1_err _

/-- Witness for C8's amended theorem on concrete inputs. -/
theorem c8_accuracy_rounded_witness :
    (get_stats sampleState 0).accuracyRate = 0 ∧
    |(get_stats stC8 0).accuracyRate -
      (sumCorrect stC8.answers : ℚ) / (stC8.answers.length : ℚ) * 100| ≤ 1 / 20 := by
  exact ⟨(c8_accuracy_rounded sampleState 0).1 rfl,
    (c8_accuracy_rounded stC8 0).2.2.1 (by decide)⟩

/-- Updating every key-`k` row to `(k, v)` makes lookup of `k` yield `v`,
provided some row holds key `k`. -/
theorem lookupSetting_map_upsert (s : List (String × String)) (k v : String)
    (h : ∃ x ∈ s, x.1 = k) :
    lookupSetting (s.map fun kv => if kv.1 == k then (k, v) else kv) k = some v := by
  induction s with
  | nil => simp at h
  | cons kv rest ih =>
    by_cases hk : kv.1 = k
    · simp [lookupSetting, hk]
    · obtain ⟨x, hx, hxk⟩ := h
      rcases List.mem_cons.mp hx with he | hr
      · exact absurd (he ▸ hxk) hk
      · have hrec := ih ⟨x, hr, hxk⟩
        simpa [lookupSetting, hk] using hrec

/-- Appending a fresh `(k, v)` row makes lookup of `k` yield `v`, provided
no earlier row holds key `k`. -/
theorem lookupSetting_append_new (s : List (String × String)) (k v : String)
    (h : ∀ x ∈ s, ¬x.1 = k) :
    lookupSetting (s ++ [(k, v)]) k = some v := by
  induction s with
  | nil => simp [lookupSetting]
  | cons kv rest ih =>
    have hk : ¬kv.1 = k := h kv (List.mem_cons_self kv rest)
    have hrec := ih fun x hx => h x (List.mem_cons_of_mem kv hx)
    simpa [lookupSetting, hk] using hrec

/-- `ON CONFLICT (key) DO UPDATE`: after upserting `(k, v)`, looking up `k`
yields `v`. -/
theorem lookupSetting_upsert_self (s : List (String × String)) (k v : String) :
    lookupSetting (upsertSetting s k v) k = some v := by
  unfold upsertSetting
  split
  · next hany =>
    apply lookupSetting_map_upsert
    obtain ⟨x, hx, hxk⟩ := List.any_eq_true.mp hany
    exact ⟨x, hx, by simpa using hxk⟩
  · next hany =>
    apply lookupSetting_append_new
    intro x hx hxk
    apply hany
    exact List.any_eq_true.mpr ⟨x, hx, by simp [hxk]⟩

/-- Upserting key `k` does not change the lookup of any other key. -/
theorem lookupSetting_upsert_other (s : List (String × String)) (k v k2 : String)
    (hne : k2 ≠ k) :
    lookupSetting (upsertSetting s k v) k2 = lookupSetting s k2 := by
  have hkk : (k == k2) = false := by
    simp
    exact fun hc => hne hc.symm
  unfold upsertSetting
  split
  · clear * - hne hkk
    induction s with
    | nil => rfl
    | cons kv rest ih =>
      by_cases hk : kv.1 = k
      · have hkv2 : (kv.1 == k2) = false := by
          simp [hk]
          exact fun hc => hne hc.symm
        simp only [List.map_cons, if_pos (by simp [hk] : (kv.1 == k) = true)]
        simp only [lookupSetting, List.find?, hkk, hkv2]
        exact ih
      · simp only [List.map_cons, if_neg (by simp [hk] : ¬(kv.1 == k) = true)]
        by_cases hk2 : (kv.1 == k2) = true
        · simp [lookupSetting, List.find?, hk2]
        · have hkv2 : (kv.1 == k2) = false := by simpa using hk2
          simp only [lookupSetting, List.find?, hkv2]
          exact ih
  · clear * - hne hkk
    induction s with
    | nil => simp [lookupSetting, List.find?, hkk]
    | cons kv rest ih =>
      by_cases hk2 : (kv.1 == k2) = true
      · simp [lookupSetting, List.find?, hk2]
      · have hkv2 : (kv.1 == k2) = false := by simpa using hk2
        simp only [List.cons_append, lookupSetting, List.find?, hkv2]
        exact ih

/-- The `current_day` step with `none` leaves the table untouched. -/
theorem applyDaySetting_none (s : List (String × String)) :
    applyDaySetting s none = s := rfl

/-- A time-field step with `none` or `""` leaves the table untouched. -/
theorem applyTimeSetting_skip (s : List (String × String)) (k : String)
    (o : Option String) (h : o = none ∨ o = some "") :
    applyTimeSetting s k o = s := by
  rcases h with h | h <;> rw [h] <;> rfl

/-- A time-field step with a non-empty value upserts it. -/
theorem applyTimeSetting_some (s : List (String × String)) (k v : String)
    (hv : v ≠ "") :
    applyTimeSetting s k (some v) = upsertSetting s k v := by
  simp only [applyTimeSetting]
  rw [if_neg hv]

/-- A time-field step never changes the lookup of a different key. -/
theorem lookupSetting_applyTime_other (s : List (String × String)) (k : String)
    (o : Option String) (key : String) (hne : key ≠ k) :
    lookupSetting (applyTimeSetting s k o) key = lookupSetting s key := by
  cases o with
  | none => rfl
  | some v =>
    by_cases hv : v = ""
    · rw [applyTimeSetting_skip s k (some v) (Or.inr (by rw [hv]))]
    · rw [applyTimeSetting_some s k v hv]
      exact lookupSetting_upsert_other s k v key hne

/-- The `current_day` step never changes the lookup of a different key. -/
theorem lookupSetting_applyDay_other (s : List (String × String)) (o : Option Int)
    (key : String) (hne : key ≠ "current_day") :
    lookupSetting (applyDaySetting s o) key = lookupSetting s key := by
  cases o with
  | none => rfl
  | some d => exact lookupSetting_upsert_other s "current_day" (toString d) key hne

/-- C9 counterexample: supplying `quiz_open_time = ""` is a supplied field
that is NOT upserted — the stored value stays `"21:00"` and the whole store
is unchanged, although the claim requires every supplied field to be
upserted. -/
theorem c9_settings_counterexample :
    update_settings stC9
      { quiz_open_time := some "", quiz_close_time := none, current_day := none } =
      stC9 ∧
    get_setting (update_settings stC9
      { quiz_open_time := some "", quiz_close_time := none, current_day := none })
      "quiz_open_time" = some "21:00" ∧
    some "21:00" ≠ some "" := by
  refine ⟨rfl, rfl, by decide⟩

/-- C9 (amended): a supplied non-empty time field and a supplied
`current_day` are upserted; a time field that is not supplied — or supplied
as the empty string — keeps its previous value, as does an unsupplied
`current_day`; every other settings key and every other table of the store
is unchanged. -/
theorem c9_settings_update (st : QuizState) (data : SettingsModel) :
    (∀ v, data.quiz_open_time = some v → v ≠ "" →
      get_setting (update_settings st data) "quiz_open_time" = some v) ∧
    ((data.quiz_open_time = none ∨ data.quiz_open_time = some "") →
      get_setting (update_settings st data) "quiz_open_time" =
        get_setting st "quiz_open_time") ∧
    (∀ v, data.quiz_close_time = some v → v ≠ "" →
      get_setting (update_settings st data) "quiz_close_time" = some v) ∧
    ((data.quiz_close_time = none ∨ data.quiz_close_time = some "") →
      get_setting (update_settings st data) "quiz_close_time" =
        get_setting st "quiz_close_time") ∧
    (∀ d, data.current_day = some d →
      get_setting (update_settings st data) "current_day" = some (toString d)) ∧
    (data.current_day = none →
      get_setting (update_settings st data) "current_day" =
        get_setting st "current_day") ∧
    (∀ key, key ≠ "quiz_open_time" → key ≠ "quiz_close_time" →
      key ≠ "current_day" →
      get_setting (update_settings st data) key = get_setting st key) ∧
    (update_settings st data).participants = st.participants ∧
    (update_settings st data).questions = st.questions ∧
    (update_settings st data).answers = st.answers ∧
    (update_settings st data).sessions = st.sessions := by
  have hget : ∀ key, get_setting (update_settings st data) key =
      lookupSetting
        (applyDaySetting
          (applyTimeSetting
            (applyTimeSetting st.settings "quiz_open_time" data.quiz_open_time)
            "quiz_close_time" data.quiz_close_time)
          data.current_day) key := fun _ => rfl
  refine ⟨?_, ?_, ?_, ?_, ?_, ?_, ?_, rfl, rfl, rfl, rfl⟩
  · intro v hov hv
    rw [hget,
      lookupSetting_applyDay_other _ data.current_day _ (by decide),
      lookupSetting_applyTime_other _ _ data.quiz_close_time _ (by decide),
      hov, applyTimeSetting_some _ _ v hv]
    exact lookupSetting_upsert_self st.settings "quiz_open_time" v
  · intro ho
    rw [hget,
      lookupSetting_applyDay_other _ data.current_day _ (by decide),
      lookupSetting_applyTime_other _ _ data.quiz_close_time _ (by decide),
      applyTimeSetting_skip _ _ data.quiz_open_time ho]
    rfl
  · intro v hov hv
    rw [hget,
      lookupSetting_applyDay_other _ data.current_day _ (by decide),
      hov, applyTimeSetting_some _ _ v hv]
    exact lookupSetting_upsert_self _ "quiz_close_time" v
  · intro ho
    rw [hget,
      lookupSetting_applyDay_other _ data.current_day _ (by decide),
      applyTimeSetting_skip _ _ data.quiz_close_time ho]
    exact lookupSetting_applyTime_other _ _ data.quiz_open_time _ (by decide)
  · intro d hod
    rw [hget, hod]
    exact lookupSetting_upsert_self _ "current_day" (toString d)
  · intro ho
    rw [hget, ho, applyDaySetting_none,
      lookupSetting_applyTime_other _ _ data.quiz_close_time _ (by decide)]
    exact lookupSetting_applyTime_other _ _ data.quiz_open_time _ (by decide)
  · intro key h1 h2 h3
    rw [hget,
      lookupSetting_applyDay_other _ data.current_day _ h3,
      lookupSetting_applyTime_other _ _ data.quiz_close_time _ h2]
    exact lookupSetting_applyTime_other _ _ data.quiz_open_time _ h1

/-- Witness for C9's amended theorem on concrete inputs: a non-empty
open-time is stored, an empty close-time keeps the old value, a supplied
day is stored, an unrelated key and the other tables are untouched. -/
theorem c9_settings_update_witness :
    get_setting (update_settings stC9
      { quiz_open_time := some "20:30", quiz_close_time := none,
        current_day := some 5 }) "quiz_open_time" = some "20:30" ∧
    get_setting (update_settings stC9
      { quiz_open_time := some "", quiz_close_time := some "",
        current_day := none }) "quiz_open_time" =
      get_setting stC9 "quiz_open_time" ∧
    get_setting (update_settings stC9
      { quiz_open_time := some "20:30", quiz_close_time := none,
        current_day := some 5 }) "current_day" = some "5" ∧
    get_setting (update_settings stC9
      { quiz_open_time := some "20:30", quiz_close_time := none,
        current_day := some 5 }) "other_key" = get_setting stC9 "other_key" ∧
    (update_settings stC9
      { quiz_open_time := some "20:30", quiz_close_time := none,
        current_day := some 5 }).answers = stC9.answers := by
  have h1 := c9_settings_update stC9
    { quiz_open_time := some "20:30", quiz_close_time := none, current_day := some 5 }
  have h2 := c9_settings_update stC9
    { quiz_open_time := some "", quiz_close_time := some "", current_day := none }
  refine ⟨h1.1 "20:30" rfl (by decide), h2.2.1 (Or.inr rfl), ?_, ?_, h1.2.2.2.2.2.2.2.2.2.1⟩
  · have hd := h1.2.2.2.2.1 5 rfl
    rw [hd]
    rfl
  · exact h1.2.2.2.2.2.2.1 "other_key" (by decide) (by decide) (by decide)

end RamadanQuiz
